import Mathlib

/-!
Verification development for the XDCC download server
(`server.js` and its bundled XDCC request module).

The definitions below are a shallow embedding of the request module's
`Request` class (the DCC negotiation state machine, the data-channel
ACK loop, the kill/cleanup logic) and of `server.js`'s transfer-event
handlers.  JavaScript numbers are modelled as `Nat` (with explicit
`% 2^32` where the code reduces modulo 2^32, and an explicit two's
complement model where the code uses 32-bit bitwise operators);
asynchronous callbacks are modelled as events fed to a step function;
filesystem outcomes are oracle inputs carried by the events.
-/

namespace Xdcc

/-! ## Wire-level helpers (XDCC request module) -/

/-- The ACK reduction loop from the data handler:
`while (ack > 0xFFFFFFFF) { ack -= 0xFFFFFFFF + 1; }`. -/
def normalizeAck (ack : Nat) : Nat :=
  if h : ack > 4294967295 then normalizeAck (ack - 4294967296) else ack
termination_by ack
decreasing_by omega

/-- Node's `Buffer.writeUInt32BE`: the four big-endian bytes of a 32-bit value
(the source always passes a value already reduced below 2^32). -/
def writeUInt32BE (n : Nat) : List Nat :=
  [n / 16777216 % 256, n / 65536 % 256, n / 256 % 256, n % 256]

/-- Big-endian byte-list value (to read an emitted ACK frame back). -/
def beVal (bs : List Nat) : Nat :=
  bs.foldl (fun acc b => acc * 256 + b) 0

/-- JavaScript `ToInt32`: reduce modulo 2^32 into the signed range
`[-2^31, 2^31)`.  Applied by JS before every `>>` and `&`. -/
def jsToInt32 (n : Nat) : Int :=
  if n % 4294967296 < 2147483648 then ((n % 4294967296 : Nat) : Int)
  else ((n % 4294967296 : Nat) : Int) - 4294967296

/-- JavaScript `x & 255` on an int32 value: the low 8 bits of the two's
complement representation, i.e. the Euclidean remainder mod 256. -/
def jsAnd255 (x : Int) : Nat := (x % 256).toNat

/-- `_intToIP`'s octet list.  The source builds, by `unshift`, the list
`[(n>>24)&255, (n>>16)&255, (n>>8)&255, n&255]`; `>> k` on an int32 is the
arithmetic shift, i.e. flooring division by `2^k` (16777216 = 2^24,
65536 = 2^16, 256 = 2^8). -/
def intToIPOctets (n : Nat) : List Nat :=
  [ jsAnd255 (Int.fdiv (jsToInt32 n) 16777216),
    jsAnd255 (Int.fdiv (jsToInt32 n) 65536),
    jsAnd255 (Int.fdiv (jsToInt32 n) 256),
    jsAnd255 (jsToInt32 n) ]

/-- `_intToIP`: `octets.join('.')`. -/
def intToIP (n : Nat) : String :=
  String.intercalate "." ((intToIPOctets n).map Nat.repr)

/-- Modelled from the spec: the encoder `ip_to_int` is not part of the
source tree (the peer encodes the address); §4.1 specifies the encoding as
"a decimal 32-bit integer, big-endian octet order". -/
def ipToInt (a b c d : Nat) : Nat :=
  a * 16777216 + b * 65536 + c * 256 + d

/-! ## The Transfer (`Request` class) as an event-driven state machine

Each asynchronous callback of the source becomes one event case of `step`.
Filesystem outcomes (`fs.stat` of the `.part` file, `mkdir`, `unlink`,
`fs.rename`) are oracle inputs carried on the event that triggers them.
A CTCP message is represented by its sender, target, its
`startsWith('DCC ')` test, and the outcome of matching the DCC regex
`DCC (\w+) "?'?(.+?)'?"? (\d+) (\d+)(?: (\d+))?` (`none` = no match);
the regex itself is abstracted as this outcome. -/

/-- Constructor arguments of `Request` (after the `Object.assign` defaults). -/
structure Args where
  nick : String
  ourNick : String
  pack : String
  path : String
  resume : Bool
deriving Repr, DecidableEq

/-- Capture groups of a successfully matched DCC message:
`params[1]`..`params[4]` and the optional `params[5]`. -/
structure Parsed where
  command : String
  filename : String
  ipNum : Nat
  port : Nat
  fifth : Option Nat
deriving Repr, DecidableEq

/-- Filesystem oracle for the DCC SEND path: directory existence, `mkdirSync`
outcome, `fs.stat` of `<file>.part` (`some size` when it exists and is a
file), and `fs.unlink` outcome. -/
structure FsOracle where
  dirExists : Bool
  mkdirOk : Bool
  partStat : Option Nat
  unlinkOk : Bool
deriving Repr, DecidableEq

/-- `this.pack_info` once populated by a DCC SEND. -/
structure PackInfo where
  command : String
  filename : String
  ip : String
  port : Nat
  filesize : Nat
  resumepos : Nat
  location : String
deriving Repr, DecidableEq

/-- The `_download` connection closure: its captured `pack`, and the local
counters `received` and `ack`. -/
structure Conn where
  pack : PackInfo
  received : Nat
  ack : Nat
deriving Repr, DecidableEq

/-- Mutable fields of a `Request` (plus `conn` for the live data channel and
`timerOn` for the progress interval; `started`/`cancelUsed` model the
`once`-listeners on `start` and `cancel`). -/
structure TState where
  finished : Bool
  started : Bool
  handlerBound : Bool
  cancelUsed : Bool
  timerOn : Bool
  pack : Option PackInfo
  conn : Option Conn
deriving Repr, DecidableEq

/-- A fresh `Request` right after the constructor. -/
def initState : TState :=
  { finished := false, started := false, handlerBound := false,
    cancelUsed := false, timerOn := false, pack := none, conn := none }

/-- Incoming events: the `start`/`cancel` emits, one CTCP-PRIVMSG delivery,
and the data-connection callbacks (`data`, `end`, `error`, timeout), the
write-stream `error`, and one progress-interval tick. `connEnd` carries the
`fs.rename` outcome used in its completion branch. -/
inductive Ev where
  | start
  | ctcp (sender target : String) (startsDCC : Bool) (p : Option Parsed) (fs : FsOracle)
  | connData (len : Nat)
  | connEnd (renameOk : Bool)
  | connError
  | connTimeout
  | streamError
  | cancel
  | tick
deriving Repr, DecidableEq

/-- The distinct `dlerror` reasons of the source, one constructor per emit
site (`text` below gives the literal message of each site). -/
inductive ErrMsg where
  | invalidFormat
  | unknownCommand
  | acceptMismatch
  | mkdirFailed
  | unlinkFailed
  | renameFailed
  | unexpectedClose
  | canceledClose
  | connErr
  | connTimedOut
  | streamErr
deriving Repr, DecidableEq

/-- The literal message string of each `dlerror` emit site (dynamic suffixes
such as `err.message` omitted). -/
def ErrMsg.text : ErrMsg → String
  | invalidFormat => "Invalid DCC message format"
  | unknownCommand => "Unknown DCC command"
  | acceptMismatch => "DCC ACCEPT parameters mismatch"
  | mkdirFailed => "Failed to create directory"
  | unlinkFailed => "Failed to delete partial file"
  | renameFailed => "Failed to rename file"
  | unexpectedClose => "Server unexpectedly closed connection"
  | canceledClose => "Server closed connection, download canceled"
  | connErr => "Connection error"
  | connTimedOut => "Connection timed out"
  | streamErr => "File stream error"

/-- Observable actions of a `Request`: IRC sends, the `connect`/`progress` /
`complete`/`dlerror` emits, ACK frames written to the data channel, and the
final rename attempt. -/
inductive Out where
  | sayXdccSend (nick text : String)
  | sayCancel (nick : String)
  | ctcpSend (nick verb payload : String)
  | connectEv
  | ackFrame (bytes : List Nat)
  | renameOp (src dst : String)
  | complete
  | dlerror (msg : ErrMsg)
  | progress
deriving Repr, DecidableEq

/-- `_killRequest`: idempotent; clears the progress interval and removes the
CTCP listener (the delayed `removeAllListeners` is not modelled — it removes
only this Request's own outbound listeners). -/
def killRequest (st : TState) : TState :=
  if st.finished then st
  else { st with finished := true, timerOn := false, handlerBound := false }

/-- `downloadDir.replace(/[\/\\]$/, '')`: drop one trailing path separator
(slash or backslash), if any. -/
def stripTrailingSep (s : String) : String :=
  match s.data.getLast? with
  | some '/' => String.mk s.data.dropLast
  | some '\\' => String.mk s.data.dropLast
  | _ => s

/-- `_download`: opens `<location>.part` for append and connects to the peer.
The successful `net.connect` callback (the `connect` emit and the progress
interval) is folded in; a connect failure surfaces as `Ev.connError`. -/
def download (st : TState) (pack : PackInfo) : TState × List Out :=
  if st.finished then (st, [])
  else ({ st with conn := some ⟨pack, pack.resumepos, pack.resumepos⟩, timerOn := true },
        [Out.connectEv])

/-- `_handleDccSend` together with its nested `createDirectory` /
`checkForPartialFile` callbacks. -/
def handleDccSend (a : Args) (st : TState) (q : Parsed) (fs : FsOracle) :
    TState × List Out :=
  let dir := stripTrailingSep a.path
  let filePath := dir ++ "/" ++ q.filename
  let pk : PackInfo :=
    { command := "SEND", filename := q.filename, ip := intToIP q.ipNum,
      port := q.port, filesize := q.fifth.getD 0, resumepos := 0,
      location := filePath }
  let st1 := { st with pack := some pk }
  if !fs.dirExists && !fs.mkdirOk then
    (st1, [Out.dlerror ErrMsg.mkdirFailed])
  else
    match fs.partStat with
    | some size =>
        if a.resume then
          let pk1 := { pk with resumepos := size }
          ({ st1 with pack := some pk1 },
           [Out.ctcpSend a.nick "privmsg"
              ("DCC RESUME " ++ pk.filename ++ " " ++ Nat.repr pk.port ++ " "
                ++ Nat.repr size)])
        else if !fs.unlinkOk then
          (st1, [Out.dlerror ErrMsg.unlinkFailed])
        else
          download st1 pk
    | none => download st1 pk

/-- `_handleDccAccept`: `parseInt(params[5])` of a missing field is `NaN`,
which compares unequal to every `resumepos`; this is the `none` case of the
optional fifth group. -/
def handleDccAccept (st : TState) (filename : String) (port : Nat)
    (resumepos : Option Nat) : TState × List Out :=
  match st.pack with
  | some pk =>
      if pk.filename = filename ∧ pk.port = port ∧ some pk.resumepos = resumepos then
        let pk1 := { pk with command := "ACCEPT" }
        download { st with pack := some pk1 } pk1
      else (st, [Out.dlerror ErrMsg.acceptMismatch])
  | none => (st, [Out.dlerror ErrMsg.acceptMismatch])

/-- `_dccDownloadHandler`. -/
def dccDownloadHandler (a : Args) (st : TState) (sender target : String)
    (startsDCC : Bool) (p : Option Parsed) (fs : FsOracle) : TState × List Out :=
  if st.finished then (st, [])
  else if sender ≠ a.nick ∨ target ≠ a.ourNick ∨ startsDCC = false then (st, [])
  else
    match p with
    | none => (st, [Out.dlerror ErrMsg.invalidFormat])
    | some q =>
        if q.command = "SEND" then handleDccSend a st q fs
        else if q.command = "ACCEPT" then
          handleDccAccept st q.filename q.port q.fifth
        else (st, [Out.dlerror ErrMsg.unknownCommand])

/-- One event of the `Request` lifecycle. -/
def step (a : Args) (st : TState) : Ev → TState × List Out
  | Ev.start =>
      if st.started then (st, [])
      else ({ st with started := true, handlerBound := true },
            [Out.sayXdccSend a.nick ("XDCC SEND " ++ a.pack)])
  | Ev.ctcp sender target startsDCC p fs =>
      if st.handlerBound then dccDownloadHandler a st sender target startsDCC p fs
      else (st, [])
  | Ev.connData len =>
      match st.conn with
      | none => (st, [])
      | some c =>
          if st.finished then (st, [])
          else
            let ack := normalizeAck (c.ack + len)
            ({ st with conn := some { c with received := c.received + len, ack := ack } },
             [Out.ackFrame (writeUInt32BE ack)])
  | Ev.connEnd renameOk =>
      match st.conn with
      | none => (st, [])
      | some c =>
          if c.received = c.pack.filesize then
            if renameOk then
              (killRequest { st with conn := none },
               [Out.renameOp (c.pack.location ++ ".part") c.pack.location,
                Out.complete])
            else
              (killRequest { st with conn := none },
               [Out.renameOp (c.pack.location ++ ".part") c.pack.location,
                Out.dlerror ErrMsg.renameFailed])
          else if st.finished = false then
            (killRequest { st with conn := none },
             [Out.dlerror ErrMsg.unexpectedClose])
          else
            (killRequest { st with conn := none },
             [Out.dlerror ErrMsg.canceledClose])
  | Ev.connError =>
      match st.conn with
      | none => (st, [])
      | some _ =>
          if st.finished then (st, [])
          else (killRequest { st with conn := none },
                [Out.dlerror ErrMsg.connErr])
  | Ev.connTimeout =>
      match st.conn with
      | none => (st, [])
      | some _ =>
          if st.finished then (st, [])
          else (killRequest { st with conn := none },
                [Out.dlerror ErrMsg.connTimedOut])
  | Ev.streamError =>
      if st.finished then (st, [])
      else (killRequest st, [Out.dlerror ErrMsg.streamErr])
  | Ev.cancel =>
      if st.cancelUsed then (st, [])
      else
        let st1 := { st with cancelUsed := true }
        if st1.finished then (st1, [])
        else (killRequest st1, [Out.sayCancel a.nick])
  | Ev.tick =>
      if st.timerOn && !st.finished then (st, [Out.progress]) else (st, [])

/-- A whole run: fold `step` over an event list, concatenating outputs. -/
def run (a : Args) (st : TState) : List Ev → TState × List Out
  | [] => (st, [])
  | ev :: evs =>
      let s1 := step a st ev
      let s2 := run a s1.1 evs
      (s2.1, s1.2 ++ s2.2)

/-- Is this output the rename attempt? -/
def isRenameOp (o : Out) : Bool :=
  match o with
  | Out.renameOp _ _ => true
  | _ => false

/-- Is this output a `progress`, `complete` or `dlerror` emit? -/
def isEmitPCD (o : Out) : Bool :=
  match o with
  | Out.progress => true
  | Out.complete => true
  | Out.dlerror _ => true
  | _ => false

/-- Sums of the nonempty prefixes of a list (total bytes after each chunk). -/
def partialSums : List Nat → List Nat
  | [] => []
  | l :: ls => l :: (partialSums ls).map (l + ·)

/-! ## `server.js`: API front-end handlers

The registry `activeDownloads` holds, per download, a tracker created only
inside `xdccRequest.once("connect")`.  For one download request the registry
is an `Option Tracker`; `socketAttached` is whether `tracker.socket` is
non-null (the `close` handler nulls it). -/

/-- One `activeDownloads` entry. -/
structure Tracker where
  socketAttached : Bool
  packNumber : String
  sendProgress : Bool
deriving Repr, DecidableEq

/-- JSON envelopes written to the API client. -/
inductive Envelope where
  | downloading (message packNumber : String)
  | progressEnv (filename : String) (progressPct received total : Nat)
  | success (filename path : String) (size : Nat) (packNumber : String)
  | failure (message packNumber : String)
deriving Repr, DecidableEq

/-- Effects of a server-side transfer-event handler. -/
inductive SrvOut where
  | envelope (e : Envelope)
  | closeSocket
deriving Repr, DecidableEq

/-- `Math.floor((received / pack.filesize) * 100)`; the float ratio is
modelled as the exact rational, whose floor is natural division (no claim
depends on float rounding of the percentage). -/
def progressPercent (received filesize : Nat) : Nat :=
  received * 100 / filesize

/-- `xdccHandlers.progress`: sends the progress envelope whenever the tracker
exists and its socket is attached — `tracker.sendProgress` is never read. -/
def progressHandler (tr : Option Tracker) (filename : String)
    (filesize received : Nat) : List SrvOut :=
  match tr with
  | some t =>
      if t.socketAttached then
        [SrvOut.envelope
          (Envelope.progressEnv filename (progressPercent received filesize)
            received filesize)]
      else []
  | none => []

/-- `xdccHandlers.complete`. -/
def completeHandler (tr : Option Tracker) (filename location : String)
    (filesize : Nat) : List SrvOut :=
  match tr with
  | some t =>
      if t.socketAttached then
        [SrvOut.envelope (Envelope.success filename location filesize t.packNumber),
         SrvOut.closeSocket]
      else []
  | none => []

/-- `xdccHandlers.error` (attached to the Transfer's `dlerror`). -/
def errorHandler (tr : Option Tracker) (err : String) : List SrvOut :=
  match tr with
  | some t =>
      if t.socketAttached then
        [SrvOut.envelope (Envelope.failure ("Download failed: " ++ err) t.packNumber),
         SrvOut.closeSocket]
      else []
  | none => []

/-- Is this server output a terminal (`success` or `error`) envelope? -/
def isTerminalEnvelope (o : SrvOut) : Bool :=
  match o with
  | SrvOut.envelope (Envelope.success _ _ _ _) => true
  | SrvOut.envelope (Envelope.failure _ _) => true
  | _ => false

/-- Whether a registry entry exists with its API socket still attached. -/
def isAttached (tr : Option Tracker) : Bool :=
  match tr with
  | some t => t.socketAttached
  | none => false

/-! ## `server.js`: configuration flags -/

/-- `const DISABLE_PROGRESS_ANSI = process.env.DISABLE_PROGRESS_ANSI === 'true' || true;`
(`env` is the raw environment value, `none` when unset). -/
def disableProgressAnsi (env : Option String) : Bool :=
  (env = some "true" : Bool) || true

/-- Console effects of `logger.progress`. -/
inductive ConsoleEff where
  | logLine (s : String)
  | rawWrite (s : String)
deriving Repr, DecidableEq

/-- The console half of `logger.progress` (lines 113–120): a full
`console.log` line when the flag is set, otherwise the ANSI
carriage-return rewrite. -/
def progressConsole (flag : Bool) (message : String) : List ConsoleEff :=
  if flag then [ConsoleEff.logLine ("[PROGRESS] " ++ message)]
  else [ConsoleEff.rawWrite "\r\x1b[K", ConsoleEff.rawWrite ("[PROGRESS] " ++ message)]

/-! ## Sample values for concrete runs -/

/-- A request for pack `#1` from bot `bot`, our nick `me`, destination `/d`,
resume enabled (the server always passes `resume: true`). -/
def sampleArgs : Args := ⟨"bot", "me", "#1", "/d", true⟩

/-- A parsed `DCC SEND "f.bin" 2130706433 5000 5`. -/
def sampleSend : Parsed := ⟨"SEND", "f.bin", 2130706433, 5000, some 5⟩

/-- A parsed `DCC SEND "f.bin" 2130706433 5000 0` (unknown size). -/
def sampleSend0 : Parsed := ⟨"SEND", "f.bin", 2130706433, 5000, some 0⟩

/-- Destination directory exists, no `.part` file. -/
def fsNoPart : FsOracle := ⟨true, true, none, true⟩

/-- Destination directory exists, `.part` file of 3 bytes. -/
def fsPart3 : FsOracle := ⟨true, true, some 3, true⟩

/-- Delivery of the sample SEND to the transfer. -/
def sendEv : Ev := Ev.ctcp "bot" "me" true (some sampleSend) fsNoPart

/-- Delivery of the zero-size sample SEND to the transfer. -/
def sendEv0 : Ev := Ev.ctcp "bot" "me" true (some sampleSend0) fsNoPart

/-- PackInfo negotiated from `sampleSend` with no resume. -/
def pk0 : PackInfo :=
  ⟨"SEND", "f.bin", intToIP 2130706433, 5000, 5, 0, "/d/f.bin"⟩

/-- A started, unfinished transfer with no pack yet. -/
def startedState : TState :=
  ⟨false, true, true, false, false, none, none⟩

/-- A killed transfer whose data connection (0 of 5 bytes) is still open. -/
def killedState : TState :=
  ⟨true, true, false, false, false, some pk0, some ⟨pk0, 0, 0⟩⟩

/-- An unfinished transfer with a freshly opened 5-byte connection. -/
def openConnState : TState :=
  ⟨false, true, true, false, true, some pk0, some ⟨pk0, 0, 0⟩⟩

/-- A transfer whose connection has received exactly the negotiated size. -/
def fullState : TState :=
  ⟨false, true, true, false, true, some pk0, some ⟨pk0, 5, 5⟩⟩

/-- Pack negotiated at a resume offset near the 32-bit wrap point. -/
def wrapPack : PackInfo :=
  ⟨"SEND", "f.bin", intToIP 2130706433, 5000, 5000000000, 4294967290, "/d/f.bin"⟩

/-- The data connection freshly opened at that offset. -/
def wrapConn : Conn := ⟨wrapPack, 4294967290, 4294967290⟩

/-- The transfer owning `wrapConn`. -/
def wrapState : TState :=
  ⟨false, true, true, false, true, some wrapPack, some wrapConn⟩

/-! ## Helper lemmas on the wire-level functions -/

theorem normalizeAck_eq_mod (a : Nat) : normalizeAck a = a % 4294967296 := by
  induction a using Nat.strong_induction_on with
  | _ a ih =>
    rw [normalizeAck]
    split
    · rw [ih (a - 4294967296) (by omega)]
      omega
    · omega

theorem writeUInt32BE_length (n : Nat) : (writeUInt32BE n).length = 4 := rfl

theorem beVal_writeUInt32BE (n : Nat) :
    beVal (writeUInt32BE n) = n % 4294967296 := by
  simp only [beVal, writeUInt32BE, List.foldl]
  omega

theorem intToIPOctets_ipToInt (a b c d : Nat)
    (ha : a < 256) (hb : b < 256) (hc : c < 256) (hd : d < 256) :
    intToIPOctets (ipToInt a b c d) = [a, b, c, d] := by
  have e24 : (16777216 : Int) = 2 ^ 24 := by norm_num
  simp only [intToIPOctets, ipToInt, jsAnd255,
    Int.fdiv_eq_ediv _ (by norm_num : (0:Int) ≤ 16777216),
    Int.fdiv_eq_ediv _ (by norm_num : (0:Int) ≤ 65536),
    Int.fdiv_eq_ediv _ (by norm_num : (0:Int) ≤ 256),
    jsToInt32]
  split <;> simp only [List.cons.injEq, and_true] <;> omega

/-! ## Helper lemmas on the Transfer state machine -/

theorem killRequest_finished (st : TState) : (killRequest st).finished = true := by
  unfold killRequest
  split <;> simp_all

theorem dccDownloadHandler_finished_noop (a : Args) (st : TState)
    (sender target : String) (d : Bool) (p : Option Parsed) (fs : FsOracle)
    (hf : st.finished = true) :
    dccDownloadHandler a st sender target d p fs = (st, []) := by
  unfold dccDownloadHandler
  simp [hf]

theorem download_noRename (st : TState) (pk : PackInfo) :
    ((download st pk).2.any isRenameOp) = false := by
  unfold download
  split <;> rfl

theorem handleDccSend_noRename (a : Args) (st : TState) (q : Parsed)
    (fs : FsOracle) : ((handleDccSend a st q fs).2.any isRenameOp) = false := by
  unfold handleDccSend
  repeat' split
  all_goals first
    | rfl
    | apply download_noRename

theorem handleDccAccept_noRename (st : TState) (f : String) (port : Nat)
    (rp : Option Nat) : ((handleDccAccept st f port rp).2.any isRenameOp) = false := by
  unfold handleDccAccept
  repeat' split
  all_goals first
    | rfl
    | apply download_noRename

theorem dccDownloadHandler_noRename (a : Args) (st : TState)
    (sender target : String) (d : Bool) (p : Option Parsed) (fs : FsOracle) :
    ((dccDownloadHandler a st sender target d p fs).2.any isRenameOp) = false := by
  unfold dccDownloadHandler
  repeat' split
  all_goals first
    | rfl
    | apply handleDccSend_noRename
    | apply handleDccAccept_noRename

/-- A step attempts the rename only on a connection-end event whose
connection has `received` equal to the negotiated file size. -/
theorem step_rename_only (a : Args) (st : TState) (ev : Ev)
    (h : ((step a st ev).2.any isRenameOp) = true) :
    ∃ c, st.conn = some c ∧ c.received = c.pack.filesize ∧
      ∃ r, ev = Ev.connEnd r := by
  revert h
  cases ev
  case start =>
    simp only [step]
    split <;> simp [isRenameOp]
  case ctcp sender target d p fs =>
    simp only [step]
    split
    · rw [dccDownloadHandler_noRename]
      simp
    · simp
  case connData len =>
    simp only [step]
    repeat' split
    all_goals simp [isRenameOp]
  case connEnd renameOk =>
    simp only [step]
    repeat' split
    all_goals simp_all [isRenameOp]
  case connError =>
    simp only [step]
    repeat' split
    all_goals simp [isRenameOp]
  case connTimeout =>
    simp only [step]
    repeat' split
    all_goals simp [isRenameOp]
  case streamError =>
    simp only [step]
    split <;> simp [isRenameOp]
  case cancel =>
    simp only [step]
    repeat' split
    all_goals simp [isRenameOp]
  case tick =>
    simp only [step]
    split <;> simp [isRenameOp]

/-- Processing a list of data chunks from a live unfinished connection:
the connection survives, stays unfinished, and `received` grows by the
total chunk length. -/
theorem run_connData_state (a : Args) (ls : List Nat) :
    ∀ (st : TState) (c : Conn), st.conn = some c → st.finished = false →
      ∃ c2, (run a st (ls.map Ev.connData)).1.conn = some c2 ∧
        (run a st (ls.map Ev.connData)).1.finished = false ∧
        c2.received = c.received + ls.sum ∧ c2.pack = c.pack := by
  induction ls with
  | nil =>
    intro st c hc hf
    exact ⟨c, by simpa [run] using hc, by simpa [run] using hf, by simp, rfl⟩
  | cons l ls ih =>
    intro st c hc hf
    have hstep : step a st (Ev.connData l) =
        ({ st with conn := some ⟨c.pack, c.received + l, normalizeAck (c.ack + l)⟩ },
         [Out.ackFrame (writeUInt32BE (normalizeAck (c.ack + l)))]) := by
      simp [step, hc, hf]
    simp only [List.map, run, hstep]
    obtain ⟨c2, h1, h2, h3, h4⟩ :=
      ih { st with conn := some ⟨c.pack, c.received + l, normalizeAck (c.ack + l)⟩ }
        ⟨c.pack, c.received + l, normalizeAck (c.ack + l)⟩ rfl (by simpa using hf)
    refine ⟨c2, h1, h2, ?_, h4⟩
    rw [h3]
    simp only [List.sum_cons]
    omega

/-- Processing a list of data chunks from a live unfinished connection emits
exactly one ACK frame per chunk, the frame after the chunk with running
total `s` holding the four big-endian bytes of `(ack0 + s) mod 2^32`. -/
theorem run_connData_outputs (a : Args) (ls : List Nat) :
    ∀ (st : TState) (c : Conn), st.conn = some c → st.finished = false →
      (run a st (ls.map Ev.connData)).2 =
        (partialSums ls).map
          (fun s => Out.ackFrame (writeUInt32BE ((c.ack + s) % 4294967296))) := by
  induction ls with
  | nil => intro st c hc hf; simp [run, partialSums]
  | cons l ls ih =>
    intro st c hc hf
    have hstep : step a st (Ev.connData l) =
        ({ st with conn := some ⟨c.pack, c.received + l, normalizeAck (c.ack + l)⟩ },
         [Out.ackFrame (writeUInt32BE (normalizeAck (c.ack + l)))]) := by
      simp [step, hc, hf]
    simp only [List.map, run, hstep, partialSums]
    rw [ih { st with conn := some ⟨c.pack, c.received + l, normalizeAck (c.ack + l)⟩ }
        ⟨c.pack, c.received + l, normalizeAck (c.ack + l)⟩ rfl (by simpa using hf)]
    simp only [normalizeAck_eq_mod, List.map_map, List.singleton_append,
      List.cons_append, List.nil_append, List.cons.injEq]
    refine ⟨trivial, ?_⟩
    congr 1
    funext s
    simp only [Function.comp_apply]
    congr 2
    omega

/-! ## Claims -/

/-- Claim C1: over any sequence of data chunks on a connection opened at
resume offset `resume_pos` (so `ack` starts at `resume_pos`), the ACK written
back after each chunk is the 4-byte big-endian encoding of
`(resume_pos + total bytes received so far) mod 2^32`; past 2^32 the value
wraps via the modulo. -/
theorem c1_ack_frames (a : Args) (st : TState) (c : Conn) (ls : List Nat)
    (hc : st.conn = some c) (hf : st.finished = false)
    (hack : c.ack = c.pack.resumepos) :
    (run a st (ls.map Ev.connData)).2 =
      (partialSums ls).map
        (fun s => Out.ackFrame (writeUInt32BE ((c.pack.resumepos + s) % 4294967296))) ∧
    (∀ n, (writeUInt32BE n).length = 4) ∧
    (∀ n, beVal (writeUInt32BE n) = n % 4294967296) := by
  refine ⟨?_, writeUInt32BE_length, beVal_writeUInt32BE⟩
  rw [← hack]
  exact run_connData_outputs a ls st c hc hf

/-- Witness for C1: a single 10-byte chunk at resume offset 4294967290
crosses 2^32; the emitted ACK is the 4-byte encoding of
`(4294967290 + 10) mod 2^32 = 4`. -/
theorem c1_ack_frames_witness :
    wrapState.conn = some wrapConn ∧ wrapState.finished = false ∧
    wrapConn.ack = wrapConn.pack.resumepos ∧
    ((run sampleArgs wrapState ([10].map Ev.connData)).2 =
      (partialSums [10]).map
        (fun s => Out.ackFrame (writeUInt32BE ((wrapConn.pack.resumepos + s) % 4294967296))) ∧
     (∀ n, (writeUInt32BE n).length = 4) ∧
     (∀ n, beVal (writeUInt32BE n) = n % 4294967296)) :=
  ⟨rfl, rfl, rfl, c1_ack_frames sampleArgs wrapState wrapConn [10] rfl rfl rfl⟩

/-- Claim C3 counterexample: a SEND with filesize 0 followed by an immediate
peer close renames `.part` and completes although `file_size = 0`. -/
theorem c3_counterexample :
    ((run sampleArgs initState [Ev.start, sendEv0]).1.conn.map
        (fun c => c.pack.filesize)) = some 0 ∧
    (step sampleArgs (run sampleArgs initState [Ev.start, sendEv0]).1
        (Ev.connEnd true)).2 =
      [Out.renameOp "/d/f.bin.part" "/d/f.bin", Out.complete] :=
  ⟨rfl, by decide⟩

/-- Claim C3 (amended): the rename is attempted exactly when the peer closes
and `received == file_size` (with no `file_size > 0` guard); when the rename
fails the transfer emits `dlerror` and finishes, leaving the `.part` file in
place (no unlink is performed). -/
theorem c3_amended (a : Args) :
    (∀ (st : TState) (ev : Ev), ((step a st ev).2.any isRenameOp) = true →
      ∃ c, st.conn = some c ∧ c.received = c.pack.filesize ∧
        ∃ r, ev = Ev.connEnd r) ∧
    (∀ (st : TState) (c : Conn), st.conn = some c →
      c.received = c.pack.filesize →
      (step a st (Ev.connEnd false)).2 =
        [Out.renameOp (c.pack.location ++ ".part") c.pack.location,
         Out.dlerror ErrMsg.renameFailed] ∧
      (step a st (Ev.connEnd false)).1.finished = true) := by
  constructor
  · exact fun st ev h => step_rename_only a st ev h
  · intro st c hc hr
    constructor
    · simp [step, hc, hr]
    · simp [step, hc, hr, killRequest_finished]

/-- Witness for C3 (amended) on a connection that has received all 5 of 5
bytes: the close with a failing rename emits the rename attempt and the
`dlerror`. -/
theorem c3_amended_witness :
    (((step sampleArgs fullState (Ev.connEnd true)).2.any isRenameOp) = true ∧
      ∃ c, fullState.conn = some c ∧ c.received = c.pack.filesize ∧
        ∃ r, (Ev.connEnd true : Ev) = Ev.connEnd r) ∧
    (fullState.conn = some ⟨pk0, 5, 5⟩ ∧
      (⟨pk0, 5, 5⟩ : Conn).received = (⟨pk0, 5, 5⟩ : Conn).pack.filesize ∧
      (step sampleArgs fullState (Ev.connEnd false)).2 =
        [Out.renameOp (pk0.location ++ ".part") pk0.location,
         Out.dlerror ErrMsg.renameFailed] ∧
      (step sampleArgs fullState (Ev.connEnd false)).1.finished = true) :=
  ⟨⟨rfl, (c3_amended sampleArgs).1 fullState (Ev.connEnd true) rfl⟩,
   rfl, rfl,
   (c3_amended sampleArgs).2 fullState ⟨pk0, 5, 5⟩ rfl rfl⟩

/-- Claim C4: on a DCC SEND with resume enabled and a `.part` file of size
`k` present, the transfer sends CTCP `DCC RESUME <filename> <port> <k>` to
the bot and records `resumepos = k`; it then opens the data channel for a
DCC ACCEPT whose filename, port and offset all match, and any mismatched
ACCEPT yields a `dlerror` instead (leaving the channel unopened). -/
theorem c4_resume_protocol (a : Args) (st : TState) (q : Parsed)
    (fs : FsOracle) (k : Nat)
    (hres : a.resume = true) (hb : st.handlerBound = true)
    (hf : st.finished = false) (hcmd : q.command = "SEND")
    (hdir : fs.dirExists = true) (hpart : fs.partStat = some k) :
    ((step a st (Ev.ctcp a.nick a.ourNick true (some q) fs)).2 =
      [Out.ctcpSend a.nick "privmsg"
        ("DCC RESUME " ++ q.filename ++ " " ++ Nat.repr q.port ++ " "
          ++ Nat.repr k)]) ∧
    (∀ st1, st1 = (step a st (Ev.ctcp a.nick a.ourNick true (some q) fs)).1 →
      (∃ pk, st1.pack = some pk ∧ pk.resumepos = k ∧
        pk.filename = q.filename ∧ pk.port = q.port) ∧
      (∀ (q2 : Parsed) (fs2 : FsOracle), q2.command = "ACCEPT" →
        q2.filename = q.filename → q2.port = q.port → q2.fifth = some k →
        ((step a st1 (Ev.ctcp a.nick a.ourNick true (some q2) fs2)).2 =
            [Out.connectEv] ∧
          ∃ c, (step a st1 (Ev.ctcp a.nick a.ourNick true (some q2) fs2)).1.conn
              = some c ∧ c.received = k ∧ c.ack = k ∧ c.pack.resumepos = k)) ∧
      (∀ (q2 : Parsed) (fs2 : FsOracle), q2.command = "ACCEPT" →
        ¬(q2.filename = q.filename ∧ q2.port = q.port ∧ q2.fifth = some k) →
        (step a st1 (Ev.ctcp a.nick a.ourNick true (some q2) fs2)).2 =
          [Out.dlerror ErrMsg.acceptMismatch] ∧
        (step a st1 (Ev.ctcp a.nick a.ourNick true (some q2) fs2)).1.conn
          = st1.conn)) := by
  have hstep1 : step a st (Ev.ctcp a.nick a.ourNick true (some q) fs) =
      ({ st with pack := some ⟨"SEND", q.filename, intToIP q.ipNum, q.port,
            q.fifth.getD 0, k, stripTrailingSep a.path ++ "/" ++ q.filename⟩ },
       [Out.ctcpSend a.nick "privmsg"
         ("DCC RESUME " ++ q.filename ++ " " ++ Nat.repr q.port ++ " "
           ++ Nat.repr k)]) := by
    simp [step, dccDownloadHandler, handleDccSend, hb, hf, hcmd, hdir,
      hpart, hres]
  refine ⟨by rw [hstep1], ?_⟩
  intro st1 hst1
  subst hst1
  rw [hstep1]
  refine ⟨⟨_, rfl, rfl, rfl, rfl⟩, ?_, ?_⟩
  · intro q2 fs2 hq2cmd hq2f hq2p hq2o
    have hne : ¬ (q2.command = "SEND") := by
      rw [hq2cmd]; intro h; exact absurd h (by decide)
    have hstep2 : step a
        ({ st with pack := some ⟨"SEND", q.filename, intToIP q.ipNum, q.port,
            q.fifth.getD 0, k, stripTrailingSep a.path ++ "/" ++ q.filename⟩ })
        (Ev.ctcp a.nick a.ourNick true (some q2) fs2) =
        ({ st with
            pack := some ⟨"ACCEPT", q.filename, intToIP q.ipNum, q.port,
              q.fifth.getD 0, k, stripTrailingSep a.path ++ "/" ++ q.filename⟩,
            conn := some ⟨⟨"ACCEPT", q.filename, intToIP q.ipNum, q.port,
              q.fifth.getD 0, k, stripTrailingSep a.path ++ "/" ++ q.filename⟩,
              k, k⟩,
            timerOn := true },
         [Out.connectEv]) := by
      simp [step, dccDownloadHandler, handleDccAccept, download, hb, hf,
        hq2cmd, hne, hq2f, hq2p, hq2o]
    rw [hstep2]
    exact ⟨rfl, ⟨⟨"ACCEPT", q.filename, intToIP q.ipNum, q.port,
      q.fifth.getD 0, k, stripTrailingSep a.path ++ "/" ++ q.filename⟩, k, k⟩,
      rfl, rfl, rfl, rfl⟩
  · intro q2 fs2 hq2cmd hmis
    have hne : ¬ (q2.command = "SEND") := by
      rw [hq2cmd]; intro h; exact absurd h (by decide)
    have hcond : ¬ (q.filename = q2.filename ∧ q.port = q2.port ∧
        some k = q2.fifth) := by
      intro h
      exact hmis ⟨h.1.symm, h.2.1.symm, h.2.2.symm⟩
    constructor
    · simp [step, dccDownloadHandler, handleDccAccept, hb, hf, hq2cmd, hne,
        hcond]
    · simp [step, dccDownloadHandler, handleDccAccept, hb, hf, hq2cmd, hne,
        hcond]

/-- Witness for C4, on a concrete SEND (5000, file `f.bin`) with a 3-byte
`.part` present and resume enabled. -/
theorem c4_resume_protocol_witness :
    (sampleArgs.resume = true ∧ startedState.handlerBound = true ∧
      startedState.finished = false ∧ sampleSend.command = "SEND" ∧
      fsPart3.dirExists = true ∧ fsPart3.partStat = some 3) ∧
    ((step sampleArgs startedState
        (Ev.ctcp sampleArgs.nick sampleArgs.ourNick true (some sampleSend)
          fsPart3)).2 =
      [Out.ctcpSend sampleArgs.nick "privmsg"
        ("DCC RESUME " ++ sampleSend.filename ++ " "
          ++ Nat.repr sampleSend.port ++ " " ++ Nat.repr 3)]) :=
  ⟨⟨rfl, rfl, rfl, rfl, rfl, rfl⟩,
   (c4_resume_protocol sampleArgs startedState sampleSend fsPart3 3
      rfl rfl rfl rfl rfl rfl).1⟩

/-- Claim C5 (code bug): the server forwards the progress envelope to the
attached client no matter what `send_progress` was — the stored
`sendProgress` flag is never consulted by `xdccHandlers.progress`.  Both
evaluations below (one with `sendProgress = false`, one with `true`) produce
the same envelope. -/
theorem c5_progress_ignores_flag :
    progressHandler (some ⟨true, "7", false⟩) "f.bin" 100 50 =
      [SrvOut.envelope (Envelope.progressEnv "f.bin" 50 50 100)] ∧
    progressHandler (some ⟨true, "7", true⟩) "f.bin" 100 50 =
      [SrvOut.envelope (Envelope.progressEnv "f.bin" 50 50 100)] :=
  ⟨rfl, rfl⟩

/-- Claim C6 counterexample: a cancelled (killed) transfer still emits the
`dlerror` `Server closed connection, download canceled` when the peer later
closes the data connection. -/
theorem c6_counterexample :
    (run sampleArgs initState [Ev.start, sendEv, Ev.cancel]).1.finished = true ∧
    (step sampleArgs (run sampleArgs initState [Ev.start, sendEv, Ev.cancel]).1
        (Ev.connEnd false)).2 =
      [Out.dlerror ErrMsg.canceledClose] :=
  ⟨rfl, rfl⟩

/-- Claim C6 (amended): once `kill` has run (`finished = true`), every event
other than a close of the data connection emits no `progress`, `complete`
or `dlerror`; a close of a still-open data connection, however, emits
exactly one terminal event. -/
theorem c6_amended (a : Args) (st : TState) (h : st.finished = true) :
    (∀ ev : Ev, (∀ r, ev ≠ Ev.connEnd r) →
      ((step a st ev).2.filter isEmitPCD) = []) ∧
    (∀ (c : Conn) (r : Bool), st.conn = some c →
      ((step a st (Ev.connEnd r)).2.filter isEmitPCD).length = 1) := by
  constructor
  · intro ev hev
    cases ev
    case connEnd r => exact absurd rfl (hev r)
    case start =>
      simp only [step]
      split <;> simp [isEmitPCD]
    case ctcp sender target d p fs =>
      simp only [step]
      split
      · rw [dccDownloadHandler_finished_noop a st sender target d p fs h]
        simp
      · simp
    case connData len =>
      simp only [step]
      repeat' split
      all_goals simp_all [isEmitPCD]
    case connError =>
      simp only [step]
      repeat' split
      all_goals simp_all [isEmitPCD]
    case connTimeout =>
      simp only [step]
      repeat' split
      all_goals simp_all [isEmitPCD]
    case streamError =>
      simp only [step, h]
      simp
    case cancel =>
      simp only [step]
      repeat' split
      all_goals simp_all [isEmitPCD]
    case tick =>
      simp only [step, h]
      simp [isEmitPCD]
  · intro c r hc
    simp only [step, hc]
    repeat' split
    all_goals simp_all [isEmitPCD]

/-- Witness for C6 (amended) at a killed transfer with a live connection. -/
theorem c6_amended_witness :
    killedState.finished = true ∧
    ((∀ ev : Ev, (∀ r, ev ≠ Ev.connEnd r) →
        ((step sampleArgs killedState ev).2.filter isEmitPCD) = []) ∧
     (∀ (c : Conn) (r : Bool), killedState.conn = some c →
        ((step sampleArgs killedState (Ev.connEnd r)).2.filter
          isEmitPCD).length = 1)) :=
  ⟨rfl, c6_amended sampleArgs killedState rfl⟩

/-- Claim C7 counterexample: a 10-byte chunk on a 5-byte transfer drives
`received` to 10 > 5 — nothing clamps `received` to `file_size`. -/
theorem c7_counterexample :
    ((run sampleArgs initState [Ev.start, sendEv, Ev.connData 10]).1.conn.map
        (fun c => (c.received, c.pack.filesize))) = some (10, 5) := rfl

/-- Claim C7 (amended): `received` equals the resume offset plus the total
bytes delivered, so `received ≤ file_size` holds exactly when the peer
delivers at most `file_size − resume_pos` bytes (the code itself never
clamps). -/
theorem c7_amended (a : Args) (st : TState) (c : Conn) (ls : List Nat)
    (hc : st.conn = some c) (hf : st.finished = false) :
    ∃ c2, (run a st (ls.map Ev.connData)).1.conn = some c2 ∧
      c2.received = c.received + ls.sum ∧
      (c.received + ls.sum ≤ c.pack.filesize → c2.received ≤ c2.pack.filesize) := by
  obtain ⟨c2, h1, h2, h3, h4⟩ := run_connData_state a ls st c hc hf
  refine ⟨c2, h1, h3, fun hb => ?_⟩
  rw [h3, h4]
  exact hb

/-- Witness for C7 (amended): 2+3 bytes on a fresh 5-byte connection. -/
theorem c7_amended_witness :
    openConnState.conn = some ⟨pk0, 0, 0⟩ ∧
    openConnState.finished = false ∧
    (∃ c2, (run sampleArgs openConnState ([2, 3].map Ev.connData)).1.conn
        = some c2 ∧
      c2.received = (⟨pk0, 0, 0⟩ : Conn).received + [2, 3].sum ∧
      ((⟨pk0, 0, 0⟩ : Conn).received + [2, 3].sum
          ≤ (⟨pk0, 0, 0⟩ : Conn).pack.filesize →
        c2.received ≤ c2.pack.filesize)) :=
  ⟨rfl, rfl,
   c7_amended sampleArgs openConnState ⟨pk0, 0, 0⟩ [2, 3] rfl rfl⟩

/-- Claim C8 counterexample: a terminal event arriving before the `connect`
registration finds no tracker in `activeDownloads` and writes nothing to the
still-attached API client. -/
theorem c8_counterexample :
    errorHandler none "Connection timed out" = [] ∧
    ((errorHandler none "Connection timed out").any isTerminalEnvelope)
      = false :=
  ⟨rfl, rfl⟩

/-- Claim C8 (amended): exactly one terminal envelope (`success` on
`complete`, `error` on `dlerror`) is written when — and only when — the
tracker was registered by the `connect` event and its API socket is still
attached; a terminal event before `connect` (no tracker) writes nothing. -/
theorem c8_amended (tr : Option Tracker) (f loc : String) (n : Nat)
    (e : String) :
    ((completeHandler tr f loc n).countP isTerminalEnvelope)
        = (if isAttached tr then 1 else 0) ∧
    ((errorHandler tr e).countP isTerminalEnvelope)
        = (if isAttached tr then 1 else 0) := by
  cases tr with
  | none => simp [completeHandler, errorHandler, isAttached]
  | some t =>
    cases htt : t.socketAttached <;>
      simp [completeHandler, errorHandler, isAttached, htt,
        isTerminalEnvelope, List.countP_cons, List.countP_nil]

/-- Claim C9: decoding the big-endian 32-bit integer encoding of any IPv4
address `a.b.c.d` returns `a.b.c.d`, including addresses whose integer form
is at least 2^31 (where JavaScript's signed `>>` applies). -/
theorem c9_ip_round_trip (a b c d : Nat)
    (ha : a < 256) (hb : b < 256) (hc : c < 256) (hd : d < 256) :
    intToIP (ipToInt a b c d) =
      String.intercalate "." [Nat.repr a, Nat.repr b, Nat.repr c, Nat.repr d] := by
  unfold intToIP
  rw [intToIPOctets_ipToInt a b c d ha hb hc hd]
  rfl

/-- Witness for C9 at `192.168.0.1`, whose integer form 3232235521 exceeds
2^31. -/
theorem c9_ip_round_trip_witness :
    (192 < 256 ∧ 168 < 256 ∧ 0 < 256 ∧ 1 < 256) ∧
    intToIP (ipToInt 192 168 0 1) =
      String.intercalate "." [Nat.repr 192, Nat.repr 168, Nat.repr 0,
        Nat.repr 1] :=
  ⟨by decide,
   c9_ip_round_trip 192 168 0 1 (by decide) (by decide) (by decide) (by decide)⟩

/-- Claim C10: `process.env.DISABLE_PROGRESS_ANSI === 'true' || true` is
`true` for every environment (unset, `'false'`, anything), so
`logger.progress` always takes the line-per-tick branch and the ANSI
carriage-return branch is unreachable. -/
theorem c10_progress_ansi_always (env : Option String) (msg : String) :
    disableProgressAnsi env = true ∧
    progressConsole (disableProgressAnsi env) msg =
      [ConsoleEff.logLine ("[PROGRESS] " ++ msg)] := by
  constructor
  · simp [disableProgressAnsi]
  · simp [progressConsole, disableProgressAnsi]

end Xdcc